import Mathlib

/- Batteries marks the rational arithmetic operations irreducible; restore
unfolding so that concrete witnesses evaluate by kernel reduction. -/
attribute [local semireducible] Rat.mul Rat.add Rat.sub Rat.inv

/-!
Verification of the CTD hysteresis test (scripts/ctd_hysteresis_test.py).

The development shallowly embeds the per-iteration behaviour of the file
sequencer in `main` together with its helper functions `apply_qartod_qc`,
`initialize_flags` and the hysteresis evaluator.  Conventions:

* NumPy float arrays with possible NaN entries become `List (Option ℚ)`,
  where `none` models NaN.
* Timestamps become `ℤ` (seconds); `np.timedelta64(5, 'm')` becomes `300`.
* A netCDF file in the queue is an `NcFile`: it is unreadable (OSError on
  open), readable but lacking the conductivity variable (KeyError), or a
  fully readable `Dataset`.
* The geometry-library computation `MultiPolygon(polygonize(...)).area` on
  the closed point list is kept abstract as a parameter
  `A : List (ℚ × ℚ) → ℚ`; every claim below holds for all `A` or fixes a
  concrete `A`.
* One iteration of the `for i, f in enumerate(ncfiles)` loop (with its
  nonlocal `skip` counter) is the function `stepOutcome`; its result records
  the flag arrays written (`save_ds` calls), the cursor advance
  (`1 + ` the skip increment of that iteration), whether `status` was set
  to 1, and whether an uncaught exception escaped (`crash`).
-/

/- Flag constants of ioos_qc `qartod.QartodFlags`. -/
namespace QartodFlags

def GOOD : Nat := 1

def UNKNOWN : Nat := 2

def SUSPECT : Nat := 3

def FAIL : Nat := 4

def MISSING : Nat := 9

end QartodFlags

/-- The `ctd_hysteresis_test` section of the QC configuration file. -/
structure HysteresisThresholds where
  fail_threshold : ℚ
  suspect_threshold : ℚ

/-- One loaded profile file.  All arrays are aligned by sample index and are
assumed to share one unique time index (duplicate timestamps are removed by
an upstream script).  `ancillary_variables` is the attribute of the
conductivity variable, already split on spaces; `qartod_vars` holds the
values of every variable whose name contains `conductivity_qartod`. -/
structure Dataset where
  time : List ℤ
  pressure : List (Option ℚ)
  conductivity : List (Option ℚ)
  ancillary_variables : List String
  qartod_vars : List (List Nat)

/-- A file of the deployment queue as seen by `xr.open_dataset`. -/
inductive NcFile
  | unreadable : NcFile
  | missingVar : NcFile
  | ok : Dataset → NcFile

/-- Check that the character list `p` is an initial segment of `s`. -/
def isPrefixL : List Char → List Char → Bool
  | [], _ => true
  | _ :: _, [] => false
  | a :: as, b :: bs => a == b && isPrefixL as bs

/-- Check that the character list `p` occurs inside `s` (Python `in`). -/
def containsL (p : List Char) : List Char → Bool
  | [] => p.isEmpty
  | s@(_ :: rest) => isPrefixL p s || containsL p rest

/-- Line 192: the first entry of `ancillary_variables` containing the
substring `instrument_ctd`; `none` models the uncaught IndexError (or
AttributeError) raised when no such entry exists. -/
def ctd_instrument (ds : Dataset) : Option String :=
  ds.ancillary_variables.find? (fun x => containsL "instrument_ctd".data x.data)

/-- Indices of the non-NaN entries of an array (`np.where` on the
non-NaN mask), as in `initialize_flags`. -/
def nonNanIdx (xs : List (Option ℚ)) : List Nat :=
  (List.range xs.length).filter (fun i => (xs.getD i none).isSome)

/-- The flag array built by `initialize_flags`: every sample starts at
UNKNOWN (2) and samples whose conductivity is NaN are set to MISSING (9). -/
def initFlags (ds : Dataset) : List Nat :=
  ds.conductivity.map (fun c => if c.isSome then QartodFlags.UNKNOWN else QartodFlags.MISSING)

/-- The full triple returned by `initialize_flags`:
`(data_idx, pressure_idx, flag_vals)`. -/
def initialize_flags (ds : Dataset) : List Nat × List Nat × List Nat :=
  (nonNanIdx ds.conductivity, nonNanIdx ds.pressure, initFlags ds)

/-- One pass of the loop body of `apply_qartod_qc`: set the conductivity
copy to NaN at every index where the QARTOD variable holds 3 or 4. -/
def maskOne : List (Option ℚ) → List Nat → List (Option ℚ)
  | [], _ => []
  | c :: cs, [] => c :: cs
  | c :: cs, q :: qs => (if q = 3 ∨ q = 4 then none else c) :: maskOne cs qs

/-- Function `apply_qartod_qc`: copy the conductivity array and blank every
sample flagged 3 (SUSPECT) or 4 (FAIL) by any `conductivity_qartod`
variable; the dataset itself is not modified. -/
def apply_qartod_qc (ds : Dataset) : List (Option ℚ) :=
  ds.qartod_vars.foldl maskOne ds.conductivity

/-- Sample `i` is masked by some QARTOD variable (flag 3 or 4). -/
def isMasked (ds : Dataset) (i : Nat) : Bool :=
  ds.qartod_vars.any (fun qs => decide (qs.getD i 0 = 3 ∨ qs.getD i 0 = 4))

/-- Replace the raw conductivity value stored at index `i` (used to state
that masked raw values never influence the computation). -/
def setCond (ds : Dataset) (i : Nat) (v : ℚ) : Dataset :=
  { ds with conductivity := ds.conductivity.set i (some v) }

/-- Number of non-NaN samples, `np.sum(~np.isnan(xs))`. -/
def countValid (xs : List (Option ℚ)) : Nat :=
  (xs.filterMap id).length

/-- Rows of one profile's merged dataframe after
`dropna(subset=['pressure', cv])`: the (conductivity, pressure) pairs in
which both coordinates are present, in sample order (the dataframe column
order is conductivity first, then pressure). -/
def validPoints (cond press : List (Option ℚ)) : List (ℚ × ℚ) :=
  (cond.zip press).filterMap (fun cp =>
    match cp with
    | (some c, some p) => some (c, p)
    | _ => none)

/-- The merged, cleaned point list `df` of a profile pair: the masked down
profile's rows followed by the masked up profile's rows. -/
def mergedPoints (ds ds2 : Dataset) : List (ℚ × ℚ) :=
  validPoints (apply_qartod_qc ds) ds.pressure ++ validPoints (apply_qartod_qc ds2) ds2.pressure

/-- Binary maximum on ℚ, written out so that it evaluates by kernel
reduction. -/
def rmax (a b : ℚ) : ℚ := if a ≤ b then b else a

/-- Binary minimum on ℚ. -/
def rmin (a b : ℚ) : ℚ := if b ≤ a then b else a

/-- Maximum of a nonempty rational list (`np.nanmax` of a non-NaN array).
On a zero-size array `np.nanmax` instead raises an uncaught ValueError;
`evaluatePair` models that crash explicitly before the range is taken, so
the 0 returned here on `[]` is totalization padding that the program path
never uses. -/
def listMax : List ℚ → ℚ
  | [] => 0
  | x :: xs => xs.foldl rmax x

/-- Minimum of a nonempty rational list (`np.nanmin`); the empty case is
padding exactly as in `listMax`, with the ValueError modelled in
`evaluatePair`. -/
def listMin : List ℚ → ℚ
  | [] => 0
  | x :: xs => xs.foldl rmin x

/-- The `pressure_copy` array: pressures of the merged points with negative
values converted to 0 (lines 267-268). -/
def clampedPressures (pts : List (ℚ × ℚ)) : List ℚ :=
  pts.map (fun p => if p.2 < 0 then 0 else p.2)

/-- Line 269: the pressure range is computed on the clamped copy. -/
def pressureRange (pts : List (ℚ × ℚ)) : ℚ :=
  listMax (clampedPressures pts) - listMin (clampedPressures pts)

/-- Line 281: data range of the conductivity column of the merged points. -/
def dataRange (pts : List (ℚ × ℚ)) : ℚ :=
  listMax (pts.map Prod.fst) - listMin (pts.map Prod.fst)

/-- Lines 271-272: `polygon_points = df.values.tolist()` followed by
appending the first point; the list handed to the geometry library.  Note
that it is built from the original (unclamped) merged points.  (Python
would raise on an empty list; that branch is only reached with a nonempty
one since the pressure range of an empty list is 0.) -/
def polygonPoints (pts : List (ℚ × ℚ)) : List (ℚ × ℚ) :=
  pts ++ [pts.headD (0, 0)]

/-- Lines 284-293: the flag decision from the normalized area and the data
range. -/
def hysteresisFlag (area dataR : ℚ) (th : HysteresisThresholds) : Nat :=
  if area > dataR * th.fail_threshold then QartodFlags.FAIL
  else if area > dataR * th.suspect_threshold then QartodFlags.SUSPECT
  else QartodFlags.GOOD

/-- NumPy fancy-index assignment `flags[idxs] = flag`. -/
def applyFlag (flags : List Nat) (idxs : List Nat) (flag : Nat) : List Nat :=
  idxs.foldl (fun fs j => fs.set j flag) flags

/-- Value of `pressure[pressure_idx][0]`: the first non-NaN pressure. -/
def firstValidPressure (ds : Dataset) : Option ℚ :=
  (nonNanIdx ds.pressure).head?.bind (fun j => ds.pressure.getD j none)

/-- Value of `pressure[pressure_idx][-1]`: the last non-NaN pressure. -/
def lastValidPressure (ds : Dataset) : Option ℚ :=
  (nonNanIdx ds.pressure).getLast?.bind (fun j => ds.pressure.getD j none)

/-- Value of `time.values[0]` (arrays are nonempty whenever reached). -/
def firstTime (ds : Dataset) : ℤ :=
  ds.time.headD 0

/-- Value of `time.values[-1]`. -/
def lastTime (ds : Dataset) : ℤ :=
  ds.time.getLastD 0

/-- Line 247: the signed pairing gate
`ds2.time.values[0] - ds.time.values[-1] < np.timedelta64(5, 'm')`. -/
def pairTimeGapOk (ds ds2 : Dataset) : Bool :=
  firstTime ds2 - lastTime ds < 300

/-- Result of one iteration of the sequencer loop: `crash` models an
uncaught exception escaping `main`; `step writes advance errored` lists the
`(file index, flag array)` pairs persisted by `save_ds`, the total cursor
advance of the iteration, and whether `status` was set to 1. -/
inductive StepOutcome
  | crash : StepOutcome
  | step : List (Nat × List Nat) → Nat → Bool → StepOutcome
deriving DecidableEq

/-- Lines 247-313: evaluation of a down profile `ds` at index `i` paired
with the up profile `ds2` at index `i + 1` (both readable, conductivity
present, directions already checked).  When both masked profiles still
have data (line 255) but the merged dataframe is empty after `dropna`
(every surviving conductivity sample sits at a NaN-pressure index),
line 269's `np.nanmax` on the zero-size `pressure_copy` raises an
uncaught ValueError: modelled as `crash` before the range is taken. -/
def evaluatePair (A : List (ℚ × ℚ) → ℚ) (th : HysteresisThresholds)
    (ds ds2 : Dataset) (i : Nat) : StepOutcome :=
  if pairTimeGapOk ds ds2 then
    if 0 < countValid (apply_qartod_qc ds) ∧ 0 < countValid (apply_qartod_qc ds2) then
      if mergedPoints ds ds2 = [] then StepOutcome.crash
      else if pressureRange (mergedPoints ds ds2) > 5 then
        StepOutcome.step
          [(i, applyFlag (initFlags ds) (nonNanIdx ds.conductivity)
                (hysteresisFlag
                  (A (polygonPoints (mergedPoints ds ds2)) / pressureRange (mergedPoints ds ds2))
                  (dataRange (mergedPoints ds ds2)) th)),
           (i + 1, applyFlag (initFlags ds2) (nonNanIdx ds2.conductivity)
                (hysteresisFlag
                  (A (polygonPoints (mergedPoints ds ds2)) / pressureRange (mergedPoints ds ds2))
                  (dataRange (mergedPoints ds ds2)) th))]
          2 false
      else StepOutcome.step [(i, initFlags ds), (i + 1, initFlags ds2)] 2 false
    else StepOutcome.step [(i, initFlags ds), (i + 1, initFlags ds2)] 2 false
  else StepOutcome.step [(i, initFlags ds), (i + 1, initFlags ds2)] 2 false

/-- One iteration of the sequencer loop (lines 172-313) at cursor `i`.
The partner-unreadable branch (lines 215-218) records the error and
increments `skip` but neither saves the current file nor continues: control
falls through to `ds2[cv]` with `ds2` unbound, raising an uncaught
NameError; it is modelled as `crash` (when a stale `ds2` from an earlier
iteration exists the source instead silently processes stale data, which is
no less a departure from the documented behaviour).  The direction checks
on an all-NaN pressure array raise an uncaught IndexError, also `crash`. -/
def stepOutcome (A : List (ℚ × ℚ) → ℚ) (th : HysteresisThresholds)
    (files : List NcFile) (i : Nat) : StepOutcome :=
  match files[i]? with
  | none => StepOutcome.step [] 1 false
  | some NcFile.unreadable => StepOutcome.step [] 1 true
  | some NcFile.missingVar => StepOutcome.step [] 1 true
  | some (NcFile.ok ds) =>
    match ctd_instrument ds with
    | none => StepOutcome.crash
    | some _ =>
      if (nonNanIdx ds.conductivity).length = 0 then StepOutcome.step [] 1 true
      else
        match firstValidPressure ds, lastValidPressure ds with
        | some pFirst, some pLast =>
          if pLast < pFirst then StepOutcome.step [(i, initFlags ds)] 1 false
          else
            match files[i + 1]? with
            | none => StepOutcome.step [(i, initFlags ds)] 1 false
            | some NcFile.unreadable => StepOutcome.crash
            | some NcFile.missingVar => StepOutcome.step [(i, initFlags ds)] 1 true
            | some (NcFile.ok ds2) =>
              match firstValidPressure ds2, lastValidPressure ds2 with
              | some p2First, some p2Last =>
                if p2First < p2Last then StepOutcome.step [(i, initFlags ds)] 1 false
                else evaluatePair A th ds ds2 i
              | _, _ => StepOutcome.crash
        | _, _ => StepOutcome.crash

/-- Concrete area function ignoring its input (the claims hold for all). -/
def A0 : List (ℚ × ℚ) → ℚ := fun _ => 0

/-- Concrete area function returning 120. -/
def A120 : List (ℚ × ℚ) → ℚ := fun _ => 120

/-- Thresholds `fail_threshold = 0.5`, `suspect_threshold = 0.2`. -/
def thW : HysteresisThresholds := ⟨1/2, 1/5⟩

/-- A readable down profile (pressure 0 → 10). -/
def dsDown : Dataset :=
  ⟨[0, 60], [some 0, some 10], [some 1, some 2], ["instrument_ctd"], []⟩

/-- A readable up profile starting 60 s after `dsDown` ends. -/
def dsUp : Dataset :=
  ⟨[120, 180], [some 10, some 0], [some 2, some 1], ["instrument_ctd"], []⟩

/-- An up profile whose start is exactly 300 s after `dsDown` ends. -/
def dsUpLate : Dataset :=
  ⟨[360, 420], [some 10, some 0], [some 2, some 1], ["instrument_ctd"], []⟩

/-- A shallow down profile (pressure spans only 3 dbar). -/
def dsShallowDown : Dataset :=
  ⟨[0, 60], [some 0, some 3], [some 1, some 2], ["instrument_ctd"], []⟩

/-- A shallow up profile paired with `dsShallowDown`. -/
def dsShallowUp : Dataset :=
  ⟨[120, 180], [some 3, some 0], [some 2, some 1], ["instrument_ctd"], []⟩

/-- A readable file whose ancillary variables lack `instrument_ctd`. -/
def dsBadAttrs : Dataset :=
  ⟨[0], [some 1], [some 1], ["sci_water_cond"], []⟩

/-- A readable file whose conductivity is entirely NaN. -/
def dsAllNan : Dataset :=
  ⟨[0, 60], [some 0, some 10], [none, none], ["instrument_ctd"], []⟩

/-- A down profile whose first sample has NaN pressure but valid
conductivity. -/
def dsNanPress : Dataset :=
  ⟨[0, 30, 60], [none, some 1, some 2], [some 5, some 6, none], ["instrument_ctd"], []⟩

/-- A one-sample profile with negative pressure. -/
def dsNegDown : Dataset :=
  ⟨[0], [some (-2)], [some 1], ["instrument_ctd"], []⟩

/-- A one-sample profile at 10 dbar. -/
def dsNegUp : Dataset :=
  ⟨[30], [some 10], [some 3], ["instrument_ctd"], []⟩

/-- A profile whose single QARTOD variable flags sample 0 as SUSPECT. -/
def dsMasked : Dataset :=
  ⟨[0, 60], [some 0, some 10], [some 7, some 8], ["instrument_ctd"], [[3, 1]]⟩

/-- A profile whose single QARTOD variable flags sample 0 as FAIL. -/
def dsMasked2 : Dataset :=
  ⟨[120, 180], [some 10, some 0], [some 8, some 7], ["instrument_ctd"], [[4, 1]]⟩

/-- Two lists are equal when they have equal length and agree on `getD` at
every index (for one fixed default). -/
theorem listExtGetD {α : Type} (d : α) :
    ∀ (l1 l2 : List α), l1.length = l2.length →
      (∀ j, l1.getD j d = l2.getD j d) → l1 = l2 := by
  intro l1
  induction l1 with
  | nil =>
    intro l2 h _
    cases l2 with
    | nil => rfl
    | cons y ys => simp at h
  | cons x xs ih =>
    intro l2 h hp
    cases l2 with
    | nil => simp at h
    | cons y ys =>
      have h0 := hp 0
      simp only [List.getD_cons_zero] at h0
      have ht : xs = ys := by
        apply ih ys
        · simpa using h
        · intro j
          have := hp (j + 1)
          simpa using this
      rw [h0, ht]

/-- Characterization of `getD` on `List.set`. -/
theorem listGetDSet {α : Type} (d a : α) :
    ∀ (l : List α) (i j : Nat),
      (l.set i a).getD j d = if i = j ∧ j < l.length then a else l.getD j d := by
  intro l
  induction l with
  | nil => intro i j; simp
  | cons x xs ih =>
    intro i j
    cases i with
    | zero =>
      cases j with
      | zero => simp
      | succ k => simp
    | succ n =>
      cases j with
      | zero => simp
      | succ k =>
        simp only [List.set_cons_succ, List.getD_cons_succ, List.length_cons, ih]
        by_cases h : n = k ∧ k < xs.length
        · rw [if_pos h, if_pos ⟨by omega, by omega⟩]
        · rw [if_neg h, if_neg (by omega)]

/-- Masking one QARTOD variable preserves the array length. -/
theorem maskOne_length : ∀ (cs : List (Option ℚ)) (qs : List Nat),
    (maskOne cs qs).length = cs.length := by
  intro cs
  induction cs with
  | nil => intro qs; cases qs <;> rfl
  | cons c cs ih =>
    intro qs
    cases qs with
    | nil => rfl
    | cons q qs => simp [maskOne, ih]

/-- Pointwise characterization of `maskOne`. -/
theorem maskOne_getD : ∀ (cs : List (Option ℚ)) (qs : List Nat) (i : Nat),
    (maskOne cs qs).getD i none =
      if (qs.getD i 0 = 3 ∨ qs.getD i 0 = 4) ∧ i < cs.length then none
      else cs.getD i none := by
  intro cs
  induction cs with
  | nil =>
    intro qs i
    cases qs <;> simp [maskOne]
  | cons c cs ih =>
    intro qs i
    cases qs with
    | nil =>
      simp [maskOne]
    | cons q qs =>
      cases i with
      | zero =>
        simp only [maskOne, List.getD_cons_zero, List.length_cons]
        by_cases hq : q = 3 ∨ q = 4
        · rw [if_pos hq, if_pos ⟨hq, by omega⟩]
        · rw [if_neg hq, if_neg (by omega)]
      | succ k =>
        simp only [maskOne, List.getD_cons_succ, List.length_cons, ih]
        by_cases h : (qs.getD k 0 = 3 ∨ qs.getD k 0 = 4) ∧ k < cs.length
        · rw [if_pos h, if_pos ⟨h.1, by omega⟩]
        · rw [if_neg h, if_neg (by omega)]

/-- Folding `maskOne` over any list of QARTOD variables preserves length. -/
theorem foldl_maskOne_length : ∀ (qss : List (List Nat)) (cs : List (Option ℚ)),
    (List.foldl maskOne cs qss).length = cs.length := by
  intro qss
  induction qss with
  | nil => intro cs; rfl
  | cons qs qss ih =>
    intro cs
    rw [List.foldl_cons, ih, maskOne_length]

/-- Pointwise characterization of the fold of `maskOne`: a sample is NaN in
the copy exactly when it was NaN already or some QARTOD variable flags it
3 or 4. -/
theorem foldl_maskOne_getD : ∀ (qss : List (List Nat)) (cs : List (Option ℚ)) (i : Nat),
    (List.foldl maskOne cs qss).getD i none =
      if (qss.any (fun qs => decide (qs.getD i 0 = 3 ∨ qs.getD i 0 = 4))) = true ∧ i < cs.length
      then none else cs.getD i none := by
  intro qss
  induction qss with
  | nil =>
    intro cs i
    simp
  | cons qs qss ih =>
    intro cs i
    rw [List.foldl_cons, ih, maskOne_length, maskOne_getD]
    simp only [List.any_cons, Bool.or_eq_true, decide_eq_true_eq]
    split_ifs with h1 h2 h3 <;> first | rfl | tauto

/-- The QARTOD-masked copy has the length of the conductivity array. -/
theorem apply_qartod_qc_length (ds : Dataset) :
    (apply_qartod_qc ds).length = ds.conductivity.length :=
  foldl_maskOne_length ds.qartod_vars ds.conductivity

/-- Pointwise characterization of `apply_qartod_qc`. -/
theorem apply_qartod_qc_getD (ds : Dataset) (i : Nat) :
    (apply_qartod_qc ds).getD i none =
      if isMasked ds i = true ∧ i < ds.conductivity.length then none
      else ds.conductivity.getD i none :=
  foldl_maskOne_getD ds.qartod_vars ds.conductivity i

/-- A sample flagged 3 or 4 by some QARTOD variable is NaN in the copy. -/
theorem apply_qartod_qc_masked (ds : Dataset) (i : Nat) (h : isMasked ds i = true) :
    (apply_qartod_qc ds).getD i none = none := by
  rw [apply_qartod_qc_getD]
  by_cases hi : i < ds.conductivity.length
  · rw [if_pos ⟨h, hi⟩]
  · rw [if_neg (by omega)]
    exact List.getD_eq_default _ _ (by omega)

/-- Changing the raw conductivity value of a masked sample does not change
the masked copy at all. -/
theorem apply_qartod_qc_setCond (ds : Dataset) (i : Nat) (v : ℚ)
    (h : isMasked ds i = true) :
    apply_qartod_qc (setCond ds i v) = apply_qartod_qc ds := by
  apply listExtGetD none
  · rw [apply_qartod_qc_length, apply_qartod_qc_length]
    simp [setCond]
  · intro j
    rw [apply_qartod_qc_getD, apply_qartod_qc_getD]
    have hmask : isMasked (setCond ds i v) j = isMasked ds j := rfl
    have hlen : (setCond ds i v).conductivity.length = ds.conductivity.length := by
      simp [setCond]
    have hset : (setCond ds i v).conductivity.getD j none =
        if i = j ∧ j < ds.conductivity.length then some v else ds.conductivity.getD j none := by
      simpa [setCond] using listGetDSet none (some v) ds.conductivity i j
    rw [hmask, hlen, hset]
    by_cases hij : i = j
    · subst hij
      by_cases hi : i < ds.conductivity.length
      · rw [if_pos ⟨h, hi⟩, if_pos ⟨h, hi⟩]
      · rw [if_neg (by omega), if_neg (by omega), if_neg (by omega)]
    · rw [if_neg (fun hc : i = j ∧ j < ds.conductivity.length => hij hc.1)]

/-- Pointwise characterization of NumPy fancy-index assignment. -/
theorem applyFlag_getD : ∀ (idxs flags : List Nat) (flag i : Nat),
    (applyFlag flags idxs flag).getD i 0 =
      if i ∈ idxs ∧ i < flags.length then flag else flags.getD i 0 := by
  intro idxs
  induction idxs with
  | nil =>
    intro flags flag i
    simp [applyFlag]
  | cons j rest ih =>
    intro flags flag i
    have hstep : applyFlag flags (j :: rest) flag = applyFlag (flags.set j flag) rest flag := rfl
    rw [hstep, ih, List.length_set, listGetDSet]
    by_cases hi : i < flags.length
    · by_cases hr : i ∈ rest
      · rw [if_pos ⟨hr, hi⟩, if_pos ⟨List.mem_cons_of_mem j hr, hi⟩]
      · rw [if_neg (by tauto)]
        by_cases hj : j = i
        · subst hj
          rw [if_pos ⟨rfl, hi⟩, if_pos ⟨List.mem_cons_self j rest, hi⟩]
        · rw [if_neg (by tauto)]
          have : ¬(i ∈ j :: rest ∧ i < flags.length) := by
            intro hc
            rcases List.mem_cons.mp hc.1 with h1 | h1
            · exact hj h1.symm
            · exact hr h1
          rw [if_neg this]
    · rw [if_neg (by tauto), if_neg (by tauto), if_neg (by tauto)]

/-- Membership in the non-NaN index list. -/
theorem mem_nonNanIdx (xs : List (Option ℚ)) (i : Nat) :
    i ∈ nonNanIdx xs ↔ i < xs.length ∧ (xs.getD i none).isSome = true := by
  unfold nonNanIdx
  rw [List.mem_filter, List.mem_range]

/-- The initial flag array has the sample count of the file. -/
theorem initFlags_length (ds : Dataset) : (initFlags ds).length = ds.conductivity.length := by
  simp [initFlags]

/-- Pointwise characterization of the initial flag array. -/
theorem initFlags_getD (ds : Dataset) (i : Nat) (h : i < ds.conductivity.length) :
    (initFlags ds).getD i 0 =
      if (ds.conductivity.getD i none).isSome then QartodFlags.UNKNOWN else QartodFlags.MISSING := by
  unfold initFlags
  rw [List.getD_eq_getElem _ _ (by simpa using h), List.getElem_map,
    List.getD_eq_getElem _ _ h]

/-- When file `i` is a readable down profile with data and instrument, and
file `i + 1` is a readable up profile, the sequencer hands the pair to the
evaluator. -/
theorem stepOutcome_pair (A : List (ℚ × ℚ) → ℚ) (th : HysteresisThresholds)
    (files : List NcFile) (i : Nat) (ds ds2 : Dataset) (instr : String) (pf pl qf ql : ℚ)
    (h1 : files[i]? = some (NcFile.ok ds))
    (h2 : files[i + 1]? = some (NcFile.ok ds2))
    (h3 : ctd_instrument ds = some instr)
    (h4 : (nonNanIdx ds.conductivity).length ≠ 0)
    (h5 : firstValidPressure ds = some pf)
    (h6 : lastValidPressure ds = some pl)
    (h7 : ¬ pl < pf)
    (h8 : firstValidPressure ds2 = some qf)
    (h9 : lastValidPressure ds2 = some ql)
    (h10 : ¬ qf < ql) :
    stepOutcome A th files i = evaluatePair A th ds ds2 i := by
  unfold stepOutcome
  rw [h1]
  simp only []
  rw [h3]
  simp only []
  rw [if_neg h4, h5, h6]
  simp only []
  rw [if_neg h7, h2]
  simp only []
  rw [h8, h9]
  simp only []
  rw [if_neg h10]

/-- Claim C1: the spec requires that when the pair partner of a down
profile cannot be read, the error is recorded, UNKNOWN flags are written
for the current file alone and the cursor advances by one.  The code
instead increments `skip` (an advance of two) and falls through to use the
unbound `ds2`, so the iteration ends in an uncaught exception: evaluated
here on a readable down profile followed by an unreadable file. -/
theorem unreadablePartner_crashes (A : List (ℚ × ℚ) → ℚ) (th : HysteresisThresholds) :
    stepOutcome A th [NcFile.ok dsDown, NcFile.unreadable] 0 = StepOutcome.crash := rfl

/-- Claim C2, counterexample: a readable file with malformed attributes (no
`instrument_ctd` entry among the ancillary variables) raises an uncaught
exception that aborts the batch instead of being recorded and skipped. -/
theorem malformedAncillary_crashes :
    stepOutcome A0 thW [NcFile.ok dsBadAttrs] 0 = StepOutcome.crash := rfl

/-- Claim C2, amended: an unreadable current file and a current file whose
conductivity variable is missing are recorded as a nonzero status and the
pass continues with the next file; malformed attributes (counterexample
above) and an unreadable pair partner (claim C1) instead abort the run. -/
theorem perFileErrors_recorded_and_continue (A : List (ℚ × ℚ) → ℚ)
    (th : HysteresisThresholds) (files : List NcFile) (i : Nat) :
    (files[i]? = some NcFile.unreadable → stepOutcome A th files i = StepOutcome.step [] 1 true)
    ∧ (files[i]? = some NcFile.missingVar → stepOutcome A th files i = StepOutcome.step [] 1 true) := by
  constructor <;> intro h <;> (unfold stepOutcome; rw [h])

/-- Witness for the amended claim C2. -/
theorem perFileErrors_recorded_and_continue_w :
    stepOutcome A0 thW [NcFile.unreadable] 0 = StepOutcome.step [] 1 true
    ∧ stepOutcome A0 thW [NcFile.missingVar] 0 = StepOutcome.step [] 1 true :=
  ⟨(perFileErrors_recorded_and_continue A0 thW [NcFile.unreadable] 0).1 rfl,
   (perFileErrors_recorded_and_continue A0 thW [NcFile.missingVar] 0).2 rfl⟩

/-- Claim C3, counterexample: in `dsNanPress` sample 0 has NaN pressure but
valid conductivity; its persisted flag is UNKNOWN (2), not MISSING (9), so
a NaN pressure alone does not produce a MISSING flag. -/
theorem nanPressure_flag_not_missing :
    stepOutcome A0 thW [NcFile.ok dsNanPress] 0 = StepOutcome.step [(0, [2, 2, 9])] 1 false
    ∧ dsNanPress.pressure.getD 0 none = none
    ∧ (2 : Nat) ≠ QartodFlags.MISSING :=
  ⟨rfl, rfl, by decide⟩

/-- Claim C3, amended: the flag array starts UNKNOWN with MISSING exactly
where the conductivity (not the pressure) is NaN, and the pair flag is
broadcast exactly over the samples with non-NaN conductivity, so MISSING
samples keep 9 regardless of the pairing outcome. -/
theorem initFlags_and_broadcast (ds : Dataset) (i flag : Nat) (h : i < ds.conductivity.length) :
    ((initFlags ds).getD i 0 =
      if (ds.conductivity.getD i none).isSome then QartodFlags.UNKNOWN else QartodFlags.MISSING)
    ∧ ((applyFlag (initFlags ds) (nonNanIdx ds.conductivity) flag).getD i 0 =
      if (ds.conductivity.getD i none).isSome then flag else QartodFlags.MISSING) := by
  constructor
  · exact initFlags_getD ds i h
  · rw [applyFlag_getD, initFlags_length]
    by_cases hs : (ds.conductivity.getD i none).isSome = true
    · rw [if_pos ⟨(mem_nonNanIdx _ _).mpr ⟨h, hs⟩, h⟩, if_pos hs]
    · have hnm : ¬(i ∈ nonNanIdx ds.conductivity ∧ i < ds.conductivity.length) := by
        intro hc
        exact hs ((mem_nonNanIdx _ _).mp hc.1).2
      rw [if_neg hnm, initFlags_getD ds i h, if_neg hs, if_neg hs]

/-- Witness for the amended claim C3, at a MISSING sample. -/
theorem initFlags_and_broadcast_w :
    ((initFlags dsNanPress).getD 2 0 =
      if (dsNanPress.conductivity.getD 2 none).isSome then QartodFlags.UNKNOWN else QartodFlags.MISSING)
    ∧ ((applyFlag (initFlags dsNanPress) (nonNanIdx dsNanPress.conductivity) 1).getD 2 0 =
      if (dsNanPress.conductivity.getD 2 none).isSome then 1 else QartodFlags.MISSING) :=
  initFlags_and_broadcast dsNanPress 2 1 (by decide)

/-- Claim C4, counterexample: for the pair `dsNegDown`, `dsNegUp` the
merged points are `[(1, -2), (3, 10)]`; the clamped pressure range is 10,
above the 5 dbar gate, yet the closed polygon handed to the area
computation still contains the vertex with pressure -2. -/
theorem polygon_keeps_negative_pressure :
    5 < pressureRange (mergedPoints dsNegDown dsNegUp)
    ∧ ((1 : ℚ), (-2 : ℚ)) ∈ polygonPoints (mergedPoints dsNegDown dsNegUp)
    ∧ ((-2 : ℚ) < 0) :=
  ⟨by decide, by decide, by decide⟩

/-- Claim C4, amended: negative pressures are clamped to zero only in the
copy used for the pressure-range computation (whose entries are therefore
all nonnegative), while the closed polygon is built from the original,
unclamped merged point list. -/
theorem clamped_range_unclamped_polygon (pts : List (ℚ × ℚ)) (j : Nat) :
    0 ≤ (clampedPressures pts).getD j 0
    ∧ polygonPoints pts = pts ++ [pts.headD (0, 0)]
    ∧ pressureRange pts = listMax (clampedPressures pts) - listMin (clampedPressures pts) := by
  refine ⟨?_, rfl, rfl⟩
  by_cases hj : j < (clampedPressures pts).length
  · rw [List.getD_eq_getElem _ _ hj]
    unfold clampedPressures at hj ⊢
    rw [List.getElem_map]
    split
    · exact le_refl 0
    · exact le_of_not_lt (by assumption)
  · rw [List.getD_eq_default _ _ (by omega)]

/-- Claim C5: for every validated pair reaching the evaluator, both
profiles receive `hysteresisFlag` of the normalized enclosed area, with
FAIL above `data_range * fail_threshold`, SUSPECT above
`data_range * suspect_threshold`, GOOD otherwise; with thresholds 0.5/0.2,
data range 10 and pressure range 20, an area of 120 is FAIL, 45 is
SUSPECT, 10 is GOOD. -/
theorem pairFlag_decision :
    (∀ (A : List (ℚ × ℚ) → ℚ) (th : HysteresisThresholds) (files : List NcFile) (i : Nat)
      (ds ds2 : Dataset) (instr : String) (pf pl qf ql : ℚ),
      files[i]? = some (NcFile.ok ds) →
      files[i + 1]? = some (NcFile.ok ds2) →
      ctd_instrument ds = some instr →
      (nonNanIdx ds.conductivity).length ≠ 0 →
      firstValidPressure ds = some pf →
      lastValidPressure ds = some pl →
      ¬ pl < pf →
      firstValidPressure ds2 = some qf →
      lastValidPressure ds2 = some ql →
      ¬ qf < ql →
      pairTimeGapOk ds ds2 = true →
      0 < countValid (apply_qartod_qc ds) →
      0 < countValid (apply_qartod_qc ds2) →
      pressureRange (mergedPoints ds ds2) > 5 →
      stepOutcome A th files i = StepOutcome.step
        [(i, applyFlag (initFlags ds) (nonNanIdx ds.conductivity)
              (hysteresisFlag
                (A (polygonPoints (mergedPoints ds ds2)) / pressureRange (mergedPoints ds ds2))
                (dataRange (mergedPoints ds ds2)) th)),
         (i + 1, applyFlag (initFlags ds2) (nonNanIdx ds2.conductivity)
              (hysteresisFlag
                (A (polygonPoints (mergedPoints ds ds2)) / pressureRange (mergedPoints ds ds2))
                (dataRange (mergedPoints ds ds2)) th))] 2 false)
    ∧ hysteresisFlag (120 / 20) 10 thW = QartodFlags.FAIL
    ∧ hysteresisFlag (45 / 20) 10 thW = QartodFlags.SUSPECT
    ∧ hysteresisFlag (10 / 20) 10 thW = QartodFlags.GOOD := by
  refine ⟨?_, by decide, by decide, by decide⟩
  intro A th files i ds ds2 instr pf pl qf ql h1 h2 h3 h4 h5 h6 h7 h8 h9 h10 ht hc1 hc2 hpr
  rw [stepOutcome_pair A th files i ds ds2 instr pf pl qf ql h1 h2 h3 h4 h5 h6 h7 h8 h9 h10]
  unfold evaluatePair
  rw [ht]
  have hne : mergedPoints ds ds2 ≠ [] := by
    intro he
    rw [he] at hpr
    norm_num [pressureRange, clampedPressures, listMax, listMin] at hpr
  rw [if_pos rfl, if_pos ⟨hc1, hc2⟩, if_neg hne, if_pos hpr]

/-- Witness for claim C5: a concrete valid pair evaluated with a geometry
oracle returning area 120 over pressure range 10 and data range 1. -/
theorem pairFlag_decision_w :
    stepOutcome A120 thW [NcFile.ok dsDown, NcFile.ok dsUp] 0 = StepOutcome.step
      [(0, applyFlag (initFlags dsDown) (nonNanIdx dsDown.conductivity)
            (hysteresisFlag
              (A120 (polygonPoints (mergedPoints dsDown dsUp)) / pressureRange (mergedPoints dsDown dsUp))
              (dataRange (mergedPoints dsDown dsUp)) thW)),
       (1, applyFlag (initFlags dsUp) (nonNanIdx dsUp.conductivity)
            (hysteresisFlag
              (A120 (polygonPoints (mergedPoints dsDown dsUp)) / pressureRange (mergedPoints dsDown dsUp))
              (dataRange (mergedPoints dsDown dsUp)) thW))] 2 false :=
  pairFlag_decision.1 A120 thW [NcFile.ok dsDown, NcFile.ok dsUp] 0 dsDown dsUp
    "instrument_ctd" 0 10 10 0 rfl rfl rfl (by decide) rfl rfl (by decide) rfl rfl
    (by decide) (by decide) (by decide) (by decide) (by decide)

/-- Claim C6: an adjacent down/up pair whose end/start gap is at least five
minutes is not evaluated: both files keep their initial (UNKNOWN/MISSING)
flag arrays, both are written, and the cursor advances by two. -/
theorem timeGapTooLarge_pair_unknown (A : List (ℚ × ℚ) → ℚ) (th : HysteresisThresholds)
    (files : List NcFile) (i : Nat) (ds ds2 : Dataset) (instr : String) (pf pl qf ql : ℚ)
    (h1 : files[i]? = some (NcFile.ok ds))
    (h2 : files[i + 1]? = some (NcFile.ok ds2))
    (h3 : ctd_instrument ds = some instr)
    (h4 : (nonNanIdx ds.conductivity).length ≠ 0)
    (h5 : firstValidPressure ds = some pf)
    (h6 : lastValidPressure ds = some pl)
    (h7 : ¬ pl < pf)
    (h8 : firstValidPressure ds2 = some qf)
    (h9 : lastValidPressure ds2 = some ql)
    (h10 : ¬ qf < ql)
    (hgap : 300 ≤ firstTime ds2 - lastTime ds) :
    stepOutcome A th files i =
      StepOutcome.step [(i, initFlags ds), (i + 1, initFlags ds2)] 2 false := by
  rw [stepOutcome_pair A th files i ds ds2 instr pf pl qf ql h1 h2 h3 h4 h5 h6 h7 h8 h9 h10]
  unfold evaluatePair
  have hfalse : pairTimeGapOk ds ds2 = false := by
    simp only [pairTimeGapOk, decide_eq_false_iff_not, not_lt]
    exact hgap
  rw [hfalse, if_neg Bool.false_ne_true]

/-- Witness for claim C6: a pair separated by exactly 300 seconds. -/
theorem timeGapTooLarge_pair_unknown_w :
    stepOutcome A0 thW [NcFile.ok dsDown, NcFile.ok dsUpLate] 0 =
      StepOutcome.step [(0, initFlags dsDown), (1, initFlags dsUpLate)] 2 false :=
  timeGapTooLarge_pair_unknown A0 thW [NcFile.ok dsDown, NcFile.ok dsUpLate] 0 dsDown dsUpLate
    "instrument_ctd" 0 10 10 0 rfl rfl rfl (by decide) rfl rfl (by decide) rfl rfl
    (by decide) (by decide)

/-- Claim C7: a time-valid down/up pair whose merged cleaned point set is
nonempty (so a pressure range exists at all; on an empty set line 269
instead raises ValueError) and has a clamped pressure range of at most
5 dbar is not evaluated: no area is computed, both files keep their
initial (UNKNOWN/MISSING) flag arrays, both are written, and the cursor
advances by two. -/
theorem smallPressureRange_pair_unknown (A : List (ℚ × ℚ) → ℚ) (th : HysteresisThresholds)
    (files : List NcFile) (i : Nat) (ds ds2 : Dataset) (instr : String) (pf pl qf ql : ℚ)
    (h1 : files[i]? = some (NcFile.ok ds))
    (h2 : files[i + 1]? = some (NcFile.ok ds2))
    (h3 : ctd_instrument ds = some instr)
    (h4 : (nonNanIdx ds.conductivity).length ≠ 0)
    (h5 : firstValidPressure ds = some pf)
    (h6 : lastValidPressure ds = some pl)
    (h7 : ¬ pl < pf)
    (h8 : firstValidPressure ds2 = some qf)
    (h9 : lastValidPressure ds2 = some ql)
    (h10 : ¬ qf < ql)
    (ht : pairTimeGapOk ds ds2 = true)
    (hne : mergedPoints ds ds2 ≠ [])
    (hpr : pressureRange (mergedPoints ds ds2) ≤ 5) :
    stepOutcome A th files i =
      StepOutcome.step [(i, initFlags ds), (i + 1, initFlags ds2)] 2 false := by
  rw [stepOutcome_pair A th files i ds ds2 instr pf pl qf ql h1 h2 h3 h4 h5 h6 h7 h8 h9 h10]
  unfold evaluatePair
  rw [ht]
  by_cases hc : 0 < countValid (apply_qartod_qc ds) ∧ 0 < countValid (apply_qartod_qc ds2)
  · rw [if_pos rfl, if_pos hc, if_neg hne, if_neg (not_lt.mpr hpr)]
  · rw [if_pos rfl, if_neg hc]

/-- Witness for claim C7: a pair spanning only 3 dbar. -/
theorem smallPressureRange_pair_unknown_w :
    stepOutcome A0 thW [NcFile.ok dsShallowDown, NcFile.ok dsShallowUp] 0 =
      StepOutcome.step [(0, initFlags dsShallowDown), (1, initFlags dsShallowUp)] 2 false :=
  smallPressureRange_pair_unknown A0 thW [NcFile.ok dsShallowDown, NcFile.ok dsShallowUp] 0
    dsShallowDown dsShallowUp "instrument_ctd" 0 3 3 0 rfl rfl rfl (by decide) rfl rfl
    (by decide) rfl rfl (by decide) (by decide) (by decide) (by decide)

/-- Claim C8: QARTOD masking works on a copy: a sample flagged 3 or 4 is
NaN in the masked copy, and replacing its raw conductivity value changes
neither profile's contribution to the merged point list handed to the area
computation (the dataset itself is never modified: `apply_qartod_qc`
returns a fresh array and leaves its argument untouched). -/
theorem qartod_mask_frame (ds ds2 : Dataset) (i : Nat) (v : ℚ)
    (h : isMasked ds i = true) (h2 : isMasked ds2 i = true) :
    (apply_qartod_qc ds).getD i none = none
    ∧ (apply_qartod_qc ds2).getD i none = none
    ∧ mergedPoints (setCond ds i v) ds2 = mergedPoints ds ds2
    ∧ mergedPoints ds (setCond ds2 i v) = mergedPoints ds ds2 := by
  refine ⟨apply_qartod_qc_masked ds i h, apply_qartod_qc_masked ds2 i h2, ?_, ?_⟩
  · unfold mergedPoints
    rw [apply_qartod_qc_setCond ds i v h]
    rfl
  · unfold mergedPoints
    rw [apply_qartod_qc_setCond ds2 i v h2]
    rfl

/-- Witness for claim C8 at sample 0 of two concretely masked profiles. -/
theorem qartod_mask_frame_w :
    (apply_qartod_qc dsMasked).getD 0 none = none
    ∧ (apply_qartod_qc dsMasked2).getD 0 none = none
    ∧ mergedPoints (setCond dsMasked 0 99) dsMasked2 = mergedPoints dsMasked dsMasked2
    ∧ mergedPoints dsMasked (setCond dsMasked2 0 99) = mergedPoints dsMasked dsMasked2 :=
  qartod_mask_frame dsMasked dsMasked2 0 99 (by decide) (by decide)

/-- Claim C9: a readable file whose conductivity is entirely NaN is
recorded as an error (nonzero status), gets no annotation written at all,
is never paired, and the pass continues with the next file. -/
theorem allNanConductivity_skipped (A : List (ℚ × ℚ) → ℚ) (th : HysteresisThresholds)
    (files : List NcFile) (i : Nat) (ds : Dataset) (instr : String)
    (h1 : files[i]? = some (NcFile.ok ds))
    (h3 : ctd_instrument ds = some instr)
    (h4 : (nonNanIdx ds.conductivity).length = 0) :
    stepOutcome A th files i = StepOutcome.step [] 1 true := by
  unfold stepOutcome
  rw [h1]
  simp only []
  rw [h3]
  simp only []
  rw [if_pos h4]

/-- Witness for claim C9. -/
theorem allNanConductivity_skipped_w :
    stepOutcome A0 thW [NcFile.ok dsAllNan] 0 = StepOutcome.step [] 1 true :=
  allNanConductivity_skipped A0 thW [NcFile.ok dsAllNan] 0 dsAllNan
    "instrument_ctd" rfl rfl (by decide)

/-- Claim C10: the pairing time gate is a signed comparison with no lower
bound: whenever the second file starts at or before the end of the first
(zero or negative gap), the gap is below five minutes and the pair passes
the gate. -/
theorem timeGate_no_lower_bound (ds ds2 : Dataset)
    (h : firstTime ds2 ≤ lastTime ds) :
    pairTimeGapOk ds ds2 = true := by
  simp only [pairTimeGapOk, decide_eq_true_eq]
  omega

/-- Witness for claim C10: an inverted pair (second file starts before the
first ends) still passes the time gate. -/
theorem timeGate_no_lower_bound_w : pairTimeGapOk dsUp dsDown = true :=
  timeGate_no_lower_bound dsUp dsDown (by decide)
